import Mathlib

/-!
Shallow embedding of the license server's two source variants
(`src/main.py` and `src/server.py`).

Modelling conventions:
* The SQLite table `license_keys` is a `List Row` (`Store`); `SELECT ... WHERE
  license_key = ?` is `selectRow`, `UPDATE ... WHERE license_key = ?` is
  `updateRows` (it rewrites every matching row and `rowcount` counts the
  matches, mirroring `cur.rowcount`), and `INSERT` appends a row after the
  PRIMARY KEY check (`keyExists`; a duplicate raises `sqlite3.IntegrityError`).
* ISO-8601 UTC timestamps are modelled as `Int` seconds; both sources compare
  timestamps of one fixed format (lexicographic string order on such strings
  agrees with chronological order), and `timedelta(days=d)` is `d * 86400`.
* Every call of `now_iso()` / `datetime.now(UTC)` / `datetime.utcnow()` in a
  handler is a separate clock read, so each handler takes one `Int` parameter
  per textual read site, in program order.
* Python truthiness is explicit: `None` and `""` are falsy for TEXT columns
  (`truthyStr`), `None` is falsy for nullable timestamps (`truthyTime`; no
  empty-string timestamp is ever stored).
* `fromisoformat` in server.py's expiry check never fails on the timestamps
  this model stores, so the `try/except` collapses to the parsed value.
-/

namespace LicenseServer

/-- The `key_type` column: the string 'lifetime' or 'timed'. -/
inductive KeyType where
  | lifetime
  | timed
deriving DecidableEq, Repr

/-- One row of the `license_keys` table (identical schema in both sources;
main.py's INSERT writes `note = ''` while server.py leaves it NULL). -/
structure Row where
  license_key : String
  key_type : KeyType
  days : Int
  created_at : Int
  activated_at : Option Int := none
  expires_at : Option Int := none
  hwid : Option String := none
  note : Option String := none
  revoked : Bool := false
deriving DecidableEq, Repr

/-- The `license_keys` table. -/
abbrev Store := List Row

/-- Python truthiness of a nullable TEXT column: NULL and '' are falsy. -/
def truthyStr : Option String → Bool
  | none => false
  | some s => !(s == "")

/-- Python truthiness of a nullable timestamp column: only NULL is falsy
(the stored timestamps are never the empty string). -/
def truthyTime : Option Int → Bool
  | none => false
  | some _ => true

/-- SELECT ... WHERE license_key = k LIMIT-one semantics (`fetchone`). -/
def selectRow : Store → String → Option Row
  | [], _ => none
  | r :: rs, k => if r.license_key = k then some r else selectRow rs k

/-- UPDATE ... WHERE license_key = k: rewrite every matching row with f. -/
def updateRows (s : Store) (k : String) (f : Row → Row) : Store :=
  s.map fun r => if r.license_key = k then f r else r

/-- Number of rows matching the key (`cur.rowcount` after such an UPDATE). -/
def rowcount : Store → String → Nat
  | [], _ => 0
  | r :: rs, k => (if r.license_key = k then 1 else 0) + rowcount rs k

/-- PRIMARY KEY existence check: an INSERT of an existing key raises
`sqlite3.IntegrityError`. -/
def keyExists : Store → String → Bool
  | [], _ => false
  | r :: rs, k => if r.license_key = k then true else keyExists rs k

/-- Seconds in one day (`timedelta(days=1)`). -/
def daySecs : Int := 86400

/-- main.py `add_days_iso(days)`: a fresh `datetime.utcnow()` read plus
`timedelta(days=days)`. The clock read is the explicit argument `t`. -/
def add_days (t days : Int) : Int := t + days * daySecs

/-- Errors surfaced by /activate in either source (main.py uses HTTP 401 with
details 'Invalid key' / 'Key revoked' / 'Key expired' / 'HWID mismatch';
server.py uses 404 'Key not found' and 403 for the other three). -/
inductive ActErr where
  | notFound
  | revoked
  | expired
  | hwidMismatch
deriving DecidableEq, Repr

/-- The expiry field of an /activate response body.  `null` is JSON null
(server.py's `expires_at: Optional[str]`), `iso t` is a timestamp string,
and `never` is main.py's sentinel string 'NEVER'. -/
inductive ExpiryField where
  | null
  | iso (t : Int)
  | never
deriving DecidableEq, Repr

/-- main.py renders `expires_at or "NEVER"`: NULL becomes the sentinel. -/
def renderMain : Option Int → ExpiryField
  | none => .never
  | some t => .iso t

/-- server.py returns the nullable field as-is: NULL stays JSON null. -/
def renderServer : Option Int → ExpiryField
  | none => .null
  | some t => .iso t

/-- main.py's /activate success statuses: 'BOUND' on first bind, 'OK' on an
idempotent re-activation. -/
inductive MainStatus where
  | BOUND
  | OK
deriving DecidableEq, Repr

/-- main.py's /activate success body. -/
structure MainResp where
  status : MainStatus
  expires : ExpiryField
deriving DecidableEq, Repr

/-- server.py's `ActivateResp`. -/
structure ServerResp where
  ok : Bool
  key_type : KeyType
  expires_at : ExpiryField
  hwid : String
deriving DecidableEq, Repr

/-- The row rewrite performed by the binding UPDATE in both sources:
`SET hwid = ?, activated_at = ?, expires_at = ? WHERE license_key = ?`. -/
def bindUpdate (h : String) (a : Int) (e : Option Int) (r : Row) : Row :=
  { r with hwid := some h, activated_at := some a, expires_at := e }

/-- main.py `/activate`.  Clock reads, in program order: `tExp` is the
`now_iso()` in the expiry check (line 182), `tAct` the `now_iso()` stored as
`activated_at` (line 189), `tAdd` the `utcnow()` inside `add_days_iso`
(line 50).  Returns the HTTP result and the table after the request. -/
def mainActivate (s : Store) (license_key hwid : String) (tExp tAct tAdd : Int) :
    Except ActErr MainResp × Store :=
  match selectRow s license_key with
  | none => (.error .notFound, s)
  | some row =>
    if row.revoked = true then (.error .revoked, s)
    else if row.key_type = .timed ∧ truthyTime row.expires_at = true ∧
        row.expires_at.getD 0 < tExp then
      (.error .expired, s)
    else if truthyStr row.hwid = false then
      -- first activation: bind HWID
      let e : Option Int :=
        if row.key_type = .timed then some (add_days tAdd row.days) else none
      (.ok ⟨.BOUND, renderMain e⟩, updateRows s license_key (bindUpdate hwid tAct e))
    else if row.hwid ≠ some hwid then
      (.error .hwidMismatch, s)
    else
      (.ok ⟨.OK, renderMain row.expires_at⟩, s)

/-- server.py `/activate` as a function of the row the handler's SELECT
returned.  Result: the HTTP outcome, plus the binding write the handler
issues (`some (activated_at, expires_at)`, to be applied with the request's
hwid) — the write is a separate, unconditional UPDATE statement in the
source, so it is kept separate here to expose the read/write granularity.
Clock reads in program order: `tAct` (line 126), `tAdd` (line 128),
`tChk` (line 146). -/
def serverHandle (ro : Option Row) (hwid : String) (tAct tAdd tChk : Int) :
    Except ActErr ServerResp × Option (Int × Option Int) :=
  match ro with
  | none => (.error .notFound, none)
  | some r =>
    if r.revoked = true then (.error .revoked, none)
    else if truthyStr r.hwid = true ∧ r.hwid ≠ some hwid then
      (.error .hwidMismatch, none)
    else
      let bindNow : Bool := !truthyStr r.hwid
      let e : Option Int :=
        if bindNow = true then
          (if r.key_type = .timed then some (tAdd + r.days * daySecs) else none)
        else r.expires_at
      let w : Option (Int × Option Int) := if bindNow = true then some (tAct, e) else none
      -- note: in the source the UPDATE of the bind branch is committed
      -- before this expiry check runs
      if r.key_type = .timed ∧ truthyTime e = true ∧ e.getD 0 < tChk then
        (.error .expired, w)
      else
        (.ok ⟨true, r.key_type, renderServer e, hwid⟩, w)

/-- The unconditional UPDATE issued by server.py's bind branch (lines
133-138); identical in shape to main.py's (lines 192-197). -/
def serverBindUpdate (s : Store) (k h : String) (a : Int) (e : Option Int) : Store :=
  updateRows s k (bindUpdate h a e)

/-- server.py `/activate`: one sequential request = SELECT, then the handler
logic, then (possibly) the binding UPDATE. -/
def serverActivate (s : Store) (license_key hwid : String) (tAct tAdd tChk : Int) :
    Except ActErr ServerResp × Store :=
  ((serverHandle (selectRow s license_key) hwid tAct tAdd tChk).1,
    match (serverHandle (selectRow s license_key) hwid tAct tAdd tChk).2 with
    | none => s
    | some (a, e) => serverBindUpdate s license_key hwid a e)

/-- Error surfaced by the admin mutations (HTTP 404 'Key not found'). -/
inductive AdminErr where
  | notFound
deriving DecidableEq, Repr

/-- main.py `/admin/revoke/{license_key}` (after `require_admin`): UPDATE
`revoked = 1`, then 404 if `cur.rowcount == 0` (the connection is closed
uncommitted on that path, so the table is unchanged). -/
def mainRevoke (s : Store) (k : String) : Except AdminErr Store :=
  if rowcount s k = 0 then .error .notFound
  else .ok (updateRows s k fun r => { r with revoked := true })

/-- main.py `/admin/reset_hwid/{license_key}`: clears hwid, activated_at and
expires_at; 404 when no row matched. -/
def mainResetHwid (s : Store) (k : String) : Except AdminErr Store :=
  if rowcount s k = 0 then .error .notFound
  else .ok (updateRows s k fun r =>
    { r with hwid := none, activated_at := none, expires_at := none })

/-- main.py `/admin/note/{license_key}`: sets the note; 404 when no row
matched. -/
def mainSetNote (s : Store) (k : String) (nt : String) : Except AdminErr Store :=
  if rowcount s k = 0 then .error .notFound
  else .ok (updateRows s k fun r => { r with note := some nt })

/-- server.py `/admin/revoke/{license_key}`: UPDATE `revoked = 1`, commit,
and answer `AdminSimpleResp(ok=True)` — there is no rowcount check, so the
Bool (the `ok` field) is `true` whether or not any row matched. -/
def serverRevoke (s : Store) (k : String) : Store × Bool :=
  (updateRows s k fun r => { r with revoked := true }, true)

/-- server.py `/admin/reset_hwid/{license_key}`: clears the binding fields
and always answers ok=True (no rowcount check). -/
def serverResetHwid (s : Store) (k : String) : Store × Bool :=
  (updateRows s k fun r =>
    { r with hwid := none, activated_at := none, expires_at := none }, true)

/-- server.py `/admin/note`: sets the note and always answers ok=True (no
rowcount check). -/
def serverSetNote (s : Store) (k : String) (nt : String) : Store × Bool :=
  (updateRows s k fun r => { r with note := some nt }, true)

/-- Errors of main.py's `/admin/create_keys`: the two HTTP 400 validations,
and the uncaught `sqlite3.IntegrityError` a key collision raises (the whole
request fails, the transaction is never committed). -/
inductive CreateErr where
  | badCount
  | badDays
  | duplicateKey
deriving DecidableEq, Repr

/-- The row inserted by main.py's create loop (line 89-92): binding fields
NULL, note '', revoked 0. -/
def mainNewRow (k : String) (kt : KeyType) (days t : Int) : Row :=
  { license_key := k, key_type := kt, days := days, created_at := t, note := some "" }

/-- The row inserted by server.py's create loop (line 173-176): binding
fields NULL, note NULL, revoked 0. -/
def serverNewRow (k : String) (kt : KeyType) (days t : Int) : Row :=
  { license_key := k, key_type := kt, days := days, created_at := t }

/-- main.py's insertion loop (lines 87-93): one generated key per slot, no
retry — a PRIMARY KEY collision raises and aborts the whole request.  `gen i`
is the i-th `secrets.token_urlsafe` draw; the per-row `now_iso()` reads are
abstracted to the single timestamp `t` (created_at plays no role in any
claim). -/
def mainInsertLoop (kt : KeyType) (days t : Int) (gen : Nat → String) :
    Nat → Store → Nat → Except CreateErr (List String × Store)
  | 0, s, _ => .ok ([], s)
  | n + 1, s, i =>
    if keyExists s (gen i) = true then .error .duplicateKey
    else
      match mainInsertLoop kt days t gen n (s ++ [mainNewRow (gen i) kt days t]) (i + 1) with
      | .error e => .error e
      | .ok p => .ok (gen i :: p.1, p.2)

/-- main.py `/admin/create_keys` (after `require_admin`): validates
`1 <= count <= 500` and, for timed, `days >= 1`; forces days to 0 for
lifetime; then inserts `count` fresh keys. -/
def mainCreateKeys (s : Store) (kt : KeyType) (count days : Int)
    (gen : Nat → String) (t : Int) : Except CreateErr (List String × Store) :=
  if count < 1 ∨ 500 < count then .error .badCount
  else if kt = .timed ∧ days < 1 then .error .badDays
  else mainInsertLoop kt (if kt = .lifetime then 0 else days) t gen count.toNat s 0

/-- server.py's inner `for _try in range(10)` loop: draw a key, retry on
`IntegrityError`, stop after a successful insert.  Returns the inserted key
and the grown table (or `none` when all attempts collided — the slot is then
silently skipped), together with the next generator index. -/
def serverTryInsert (gen : Nat → String) (kt : KeyType) (days t : Int) :
    Nat → Store → Nat → Option (String × Store) × Nat
  | 0, _, i => (none, i)
  | fuel + 1, s, i =>
    if keyExists s (gen i) = true then serverTryInsert gen kt days t fuel s (i + 1)
    else (some (gen i, s ++ [serverNewRow (gen i) kt days t]), i + 1)

/-- server.py's outer `for _ in range(req.count)` loop: each slot gets up to
10 generation attempts; an exhausted slot contributes no key and no error. -/
def serverCreateLoop (gen : Nat → String) (kt : KeyType) (days t : Int) :
    Nat → Store → Nat → List String × Store
  | 0, s, _ => ([], s)
  | n + 1, s, i =>
    match serverTryInsert gen kt days t 10 s i with
    | (none, i') => serverCreateLoop gen kt days t n s i'
    | (some (k, s'), i') =>
      let p := serverCreateLoop gen kt days t n s' i'
      (k :: p.1, p.2)

/-- server.py `/admin/create_keys`: pydantic validates `1 <= count <= 200`
and `0 <= days <= 3650` (a violation is an HTTP 422 before the handler runs,
modelled as `none`); the handler stores `days` for timed and 0 for lifetime
and returns ok with the created keys — possibly fewer than `count`. -/
def serverCreateKeys (s : Store) (kt : KeyType) (count days : Int)
    (gen : Nat → String) (t : Int) : Option (List String × Store) :=
  if count < 1 ∨ 200 < count ∨ days < 0 ∨ 3650 < days then none
  else some (serverCreateLoop gen kt (if kt = .timed then days else 0) t count.toNat s 0)

/-- Every state-mutating endpoint of either source, as one operation type
(the listing endpoints and the admin HTML page only read). -/
inductive Op where
  | activateM (k h : String) (t1 t2 t3 : Int)
  | activateS (k h : String) (t1 t2 t3 : Int)
  | revokeM (k : String)
  | revokeS (k : String)
  | resetM (k : String)
  | resetS (k : String)
  | noteM (k nt : String)
  | noteS (k nt : String)
  | createM (kt : KeyType) (count days : Int) (gen : Nat → String) (t : Int)
  | createS (kt : KeyType) (count days : Int) (gen : Nat → String) (t : Int)

/-- The table after one request: a failing request (HTTP error / abort)
leaves the table as it was. -/
def applyOp (op : Op) (s : Store) : Store :=
  match op with
  | .activateM k h t1 t2 t3 => (mainActivate s k h t1 t2 t3).2
  | .activateS k h t1 t2 t3 => (serverActivate s k h t1 t2 t3).2
  | .revokeM k => match mainRevoke s k with | .ok s' => s' | .error _ => s
  | .revokeS k => (serverRevoke s k).1
  | .resetM k => match mainResetHwid s k with | .ok s' => s' | .error _ => s
  | .resetS k => (serverResetHwid s k).1
  | .noteM k nt => match mainSetNote s k nt with | .ok s' => s' | .error _ => s
  | .noteS k nt => (serverSetNote s k nt).1
  | .createM kt c d gen t =>
      match mainCreateKeys s kt c d gen t with | .ok p => p.2 | .error _ => s
  | .createS kt c d gen t =>
      match serverCreateKeys s kt c d gen t with | some p => p.2 | none => s

/-! Basic facts about the table operations. -/

theorem bindUpdate_license_key (h : String) (a : Int) (e : Option Int) (r : Row) :
    (bindUpdate h a e r).license_key = r.license_key := rfl

theorem bindUpdate_revoked (h : String) (a : Int) (e : Option Int) (r : Row) :
    (bindUpdate h a e r).revoked = r.revoked := rfl

theorem selectRow_updateRows_self (s : Store) (k : String) (f : Row → Row)
    (hf : ∀ r, (f r).license_key = r.license_key) :
    selectRow (updateRows s k f) k = (selectRow s k).map f := by
  induction s with
  | nil => rfl
  | cons r rs ih =>
    by_cases h : r.license_key = k
    · simp [updateRows, selectRow, h, hf]
    · simp only [updateRows, List.map_cons, if_neg h, selectRow, h, ite_false]
      exact ih

theorem keyExists_updateRows (s : Store) (k q : String) (f : Row → Row)
    (hf : ∀ r, (f r).license_key = r.license_key) :
    keyExists (updateRows s q f) k = keyExists s k := by
  induction s with
  | nil => rfl
  | cons r rs ih =>
    by_cases h : r.license_key = q
    · simp only [updateRows, List.map_cons, if_pos h, keyExists, hf]
      by_cases h2 : r.license_key = k
      · simp [h2]
      · simp only [if_neg h2]
        exact ih
    · simp only [updateRows, List.map_cons, if_neg h, keyExists]
      by_cases h2 : r.license_key = k
      · simp [h2]
      · simp only [if_neg h2]
        exact ih

theorem keyExists_append (s t : Store) (k : String) :
    keyExists (s ++ t) k = (keyExists s k || keyExists t k) := by
  induction s with
  | nil => simp [keyExists]
  | cons r rs ih =>
    by_cases h : r.license_key = k
    · simp [keyExists, h]
    · simp only [List.cons_append, keyExists, if_neg h]
      exact ih

theorem rowcount_zero_of_absent (s : Store) (k : String)
    (h : keyExists s k = false) : rowcount s k = 0 := by
  induction s with
  | nil => rfl
  | cons r rs ih =>
    by_cases h2 : r.license_key = k
    · simp [keyExists, h2] at h
    · simp only [keyExists, if_neg h2] at h
      simp only [rowcount, if_neg h2, ih h]

/-- The key/revocation invariant tracked by the monotonic-revocation claim:
the key is present and every row carrying it is revoked. -/
def keyRevokedIn (k : String) (s : Store) : Prop :=
  keyExists s k = true ∧ ∀ r ∈ s, r.license_key = k → r.revoked = true

theorem keyRevokedIn_updateRows (k q : String) (f : Row → Row) (s : Store)
    (hf : ∀ r, (f r).license_key = r.license_key)
    (hrev : ∀ r, r.revoked = true → (f r).revoked = true)
    (h : keyRevokedIn k s) : keyRevokedIn k (updateRows s q f) := by
  refine ⟨by rw [keyExists_updateRows s k q f hf]; exact h.1, ?_⟩
  intro r hr hk
  rcases List.mem_map.mp hr with ⟨r0, hr0, rfl⟩
  by_cases h2 : r0.license_key = q
  · simp only [if_pos h2] at hk ⊢
    exact hrev r0 (h.2 r0 hr0 (by rw [← hf r0]; exact hk))
  · simp only [if_neg h2] at hk ⊢
    exact h.2 r0 hr0 hk

theorem keyRevokedIn_append_fresh (k : String) (s : Store) (r : Row)
    (h : keyRevokedIn k s) (hne : r.license_key ≠ k) :
    keyRevokedIn k (s ++ [r]) := by
  refine ⟨by rw [keyExists_append]; simp [h.1], ?_⟩
  intro x hx hk
  rcases List.mem_append.mp hx with hx | hx
  · exact h.2 x hx hk
  · rw [List.mem_singleton] at hx
    subst hx
    exact absurd hk hne

theorem absent_ne_of_keyRevokedIn (k q : String) (s : Store)
    (h : keyRevokedIn k s) (hq : ¬keyExists s q = true) : q ≠ k := by
  intro he
  subst he
  exact hq h.1

/-! Path lemmas for the two /activate handlers: one lemma per reachable
branch, with hypotheses that are exactly the branch guards. -/

theorem mainActivate_revokedPath (s : Store) (k h : String) (t1 t2 t3 : Int) (row : Row)
    (hrow : selectRow s k = some row) (hrev : row.revoked = true) :
    mainActivate s k h t1 t2 t3 = (.error .revoked, s) := by
  simp [mainActivate, hrow, hrev]

theorem serverActivate_revokedPath (s : Store) (k h : String) (t1 t2 t3 : Int) (row : Row)
    (hrow : selectRow s k = some row) (hrev : row.revoked = true) :
    serverActivate s k h t1 t2 t3 = (.error .revoked, s) := by
  simp [serverActivate, serverHandle, hrow, hrev]

theorem mainActivate_expiredPath (s : Store) (k h : String) (t1 t2 t3 : Int) (row : Row) (e : Int)
    (hrow : selectRow s k = some row) (hrev : row.revoked = false)
    (hkt : row.key_type = .timed) (he : row.expires_at = some e) (hlt : e < t1) :
    mainActivate s k h t1 t2 t3 = (.error .expired, s) := by
  simp [mainActivate, hrow, hrev, hkt, he, truthyTime, hlt]

theorem serverActivate_mismatchPath (s : Store) (k h : String) (t1 t2 t3 : Int) (row : Row)
    (hrow : selectRow s k = some row) (hrev : row.revoked = false)
    (hb : truthyStr row.hwid = true) (hm : row.hwid ≠ some h) :
    serverActivate s k h t1 t2 t3 = (.error .hwidMismatch, s) := by
  simp [serverActivate, serverHandle, hrow, hrev, hb, hm]

theorem mainActivate_okPath (s : Store) (k h : String) (t1 t2 t3 : Int) (row : Row)
    (hrow : selectRow s k = some row) (hrev : row.revoked = false)
    (hexp : ¬(row.key_type = .timed ∧ truthyTime row.expires_at = true ∧
      row.expires_at.getD 0 < t1))
    (hb : truthyStr row.hwid = true) (hm : row.hwid = some h) :
    mainActivate s k h t1 t2 t3 = (.ok ⟨.OK, renderMain row.expires_at⟩, s) := by
  rw [hm] at hb
  simp [mainActivate, hrow, hrev, hexp, hb, hm]

theorem serverActivate_okPath (s : Store) (k h : String) (t1 t2 t3 : Int) (row : Row)
    (hrow : selectRow s k = some row) (hrev : row.revoked = false)
    (hb : truthyStr row.hwid = true) (hm : row.hwid = some h)
    (hexp : ¬(row.key_type = .timed ∧ truthyTime row.expires_at = true ∧
      row.expires_at.getD 0 < t3)) :
    serverActivate s k h t1 t2 t3 =
      (.ok ⟨true, row.key_type, renderServer row.expires_at, h⟩, s) := by
  rw [hm] at hb
  simp [serverActivate, serverHandle, hrow, hrev, hb, hm, hexp]

theorem mainActivate_bindPath (s : Store) (k h : String) (t1 t2 t3 : Int) (row : Row)
    (hrow : selectRow s k = some row) (hrev : row.revoked = false)
    (hexp : ¬(row.key_type = .timed ∧ truthyTime row.expires_at = true ∧
      row.expires_at.getD 0 < t1))
    (hb : truthyStr row.hwid = false) :
    mainActivate s k h t1 t2 t3 =
      (.ok ⟨.BOUND, renderMain
          (if row.key_type = .timed then some (add_days t3 row.days) else none)⟩,
        updateRows s k (bindUpdate h t2
          (if row.key_type = .timed then some (add_days t3 row.days) else none))) := by
  simp [mainActivate, hrow, hrev, hexp, hb]

theorem serverActivate_bindPath (s : Store) (k h : String) (t1 t2 t3 : Int) (row : Row)
    (hrow : selectRow s k = some row) (hrev : row.revoked = false)
    (hb : truthyStr row.hwid = false)
    (hexp : ¬(row.key_type = .timed ∧
      truthyTime (if row.key_type = .timed then some (t2 + row.days * daySecs) else none) = true ∧
      (if row.key_type = .timed then some (t2 + row.days * daySecs) else none).getD 0 < t3)) :
    serverActivate s k h t1 t2 t3 =
      (.ok ⟨true, row.key_type,
          renderServer (if row.key_type = .timed then some (t2 + row.days * daySecs) else none), h⟩,
        serverBindUpdate s k h t1
          (if row.key_type = .timed then some (t2 + row.days * daySecs) else none)) := by
  simp [serverActivate, serverHandle, hrow, hrev, hb, hexp]

theorem mainActivate_error_unchanged (s : Store) (k h : String) (t1 t2 t3 : Int) (er : ActErr)
    (herr : (mainActivate s k h t1 t2 t3).1 = .error er) :
    (mainActivate s k h t1 t2 t3).2 = s := by
  unfold mainActivate at herr ⊢
  cases hrow : selectRow s k with
  | none => rfl
  | some row =>
    rw [hrow] at herr
    by_cases h1 : row.revoked = true
    · simp [h1]
    by_cases h2 : row.key_type = .timed ∧ truthyTime row.expires_at = true ∧
        row.expires_at.getD 0 < t1
    · simp [h1, h2]
    by_cases h3 : truthyStr row.hwid = false
    · simp [h1, h2, h3] at herr
    by_cases h4 : row.hwid ≠ some h
    · simp [h1, h2, h3, h4]
    · simp [h1, h2, h3, h4] at herr

theorem mainActivate_store (s : Store) (k h : String) (t1 t2 t3 : Int) :
    (mainActivate s k h t1 t2 t3).2 = s ∨
      ∃ a e, (mainActivate s k h t1 t2 t3).2 = updateRows s k (bindUpdate h a e) := by
  unfold mainActivate
  cases hrow : selectRow s k with
  | none => exact Or.inl rfl
  | some row =>
    by_cases h1 : row.revoked = true
    · simp [h1]
    by_cases h2 : row.key_type = .timed ∧ truthyTime row.expires_at = true ∧
        row.expires_at.getD 0 < t1
    · simp [h1, h2]
    by_cases h3 : truthyStr row.hwid = false
    · refine Or.inr ⟨t2, if row.key_type = .timed then some (add_days t3 row.days) else none, ?_⟩
      simp [h1, h2, h3]
    by_cases h4 : row.hwid ≠ some h
    · simp [h1, h2, h3, h4]
    · simp [h1, h2, h3, h4]

theorem serverActivate_store (s : Store) (k h : String) (t1 t2 t3 : Int) :
    (serverActivate s k h t1 t2 t3).2 = s ∨
      ∃ a e, (serverActivate s k h t1 t2 t3).2 = serverBindUpdate s k h a e := by
  unfold serverActivate
  cases hw : (serverHandle (selectRow s k) h t1 t2 t3).2 with
  | none => exact Or.inl rfl
  | some ae =>
    obtain ⟨a, e⟩ := ae
    exact Or.inr ⟨a, e, rfl⟩

theorem serverActivate_bound_unchanged (s : Store) (k h : String) (t1 t2 t3 : Int) (row : Row)
    (hrow : selectRow s k = some row) (hb : truthyStr row.hwid = true) :
    (serverActivate s k h t1 t2 t3).2 = s := by
  unfold serverActivate serverHandle
  rw [hrow]
  by_cases h1 : row.revoked = true
  · simp [h1]
  by_cases h2 : truthyStr row.hwid = true ∧ row.hwid ≠ some h
  · simp [h1, h2]
  · simp [h1, h2, hb]
    split
    · rfl
    · next a e heq =>
      split at heq
      · split at heq
        · cases heq
        · cases heq
      · cases heq

theorem serverActivate_otherError_unchanged (s : Store) (k h : String) (t1 t2 t3 : Int)
    (er : ActErr) (hne : er ≠ .expired)
    (herr : (serverActivate s k h t1 t2 t3).1 = .error er) :
    (serverActivate s k h t1 t2 t3).2 = s := by
  unfold serverActivate serverHandle at herr ⊢
  cases hrow : selectRow s k with
  | none => rfl
  | some r =>
    rw [hrow] at herr
    by_cases h1 : r.revoked = true
    · simp [h1]
    by_cases h2 : truthyStr r.hwid = true ∧ r.hwid ≠ some h
    · simp [h1, h2]
    by_cases h3 : truthyStr r.hwid = true
    · simp [h1, h2, h3]
      split
      · rfl
      · next a e heq =>
        split at heq
        · split at heq
          · cases heq
          · cases heq
        · cases heq
    · by_cases hkt : r.key_type = KeyType.timed
      · by_cases hlt : t2 + r.days * daySecs < t3
        · simp [h1, h2, h3, hkt, hlt, truthyTime] at herr
          exact absurd herr.symm hne
        · simp [h1, h2, h3, hkt, hlt, truthyTime] at herr
      · simp [h1, h2, h3, hkt, truthyTime] at herr

/-! Preservation of the revocation invariant by the creation loops. -/

theorem mainInsertLoop_keyRevokedIn (kt : KeyType) (days t : Int) (gen : Nat → String)
    (k : String) : ∀ (n : Nat) (s : Store) (i : Nat), keyRevokedIn k s →
    ∀ ks s2, mainInsertLoop kt days t gen n s i = .ok (ks, s2) → keyRevokedIn k s2 := by
  intro n
  induction n with
  | zero =>
    intro s i h ks s2 heq
    unfold mainInsertLoop at heq
    cases heq
    exact h
  | succ n ih =>
    intro s i h ks s2 heq
    unfold mainInsertLoop at heq
    by_cases hex : keyExists s (gen i) = true
    · simp [hex] at heq
    · simp only [hex, if_false, ite_false, if_neg] at heq
      have hfresh : (mainNewRow (gen i) kt days t).license_key ≠ k :=
        absent_ne_of_keyRevokedIn k (gen i) s h hex
      have h2 : keyRevokedIn k (s ++ [mainNewRow (gen i) kt days t]) :=
        keyRevokedIn_append_fresh k s _ h hfresh
      cases hrec : mainInsertLoop kt days t gen n (s ++ [mainNewRow (gen i) kt days t]) (i + 1) with
      | error e => rw [hrec] at heq; cases heq
      | ok p =>
        rw [hrec] at heq
        cases heq
        exact ih _ _ h2 p.1 p.2 (by rw [hrec])

theorem serverTryInsert_keyRevokedIn (gen : Nat → String) (kt : KeyType) (days t : Int)
    (k : String) : ∀ (fuel : Nat) (s : Store) (i : Nat), keyRevokedIn k s →
    ∀ key s2 i2, serverTryInsert gen kt days t fuel s i = (some (key, s2), i2) →
    keyRevokedIn k s2 := by
  intro fuel
  induction fuel with
  | zero =>
    intro s i h key s2 i2 heq
    unfold serverTryInsert at heq
    cases heq
  | succ fuel ih =>
    intro s i h key s2 i2 heq
    unfold serverTryInsert at heq
    by_cases hex : keyExists s (gen i) = true
    · simp only [hex, if_true, ite_true] at heq
      exact ih s (i + 1) h key s2 i2 heq
    · simp only [hex, if_false, ite_false, if_neg] at heq
      have hfresh : (serverNewRow (gen i) kt days t).license_key ≠ k :=
        absent_ne_of_keyRevokedIn k (gen i) s h hex
      cases heq
      exact keyRevokedIn_append_fresh k s _ h hfresh

theorem serverCreateLoop_keyRevokedIn (gen : Nat → String) (kt : KeyType) (days t : Int)
    (k : String) : ∀ (n : Nat) (s : Store) (i : Nat), keyRevokedIn k s →
    keyRevokedIn k (serverCreateLoop gen kt days t n s i).2 := by
  intro n
  induction n with
  | zero => intro s i h; exact h
  | succ n ih =>
    intro s i h
    unfold serverCreateLoop
    cases htry : serverTryInsert gen kt days t 10 s i with
    | mk o i2 =>
      cases o with
      | none => exact ih s i2 h
      | some p =>
        obtain ⟨key, s2⟩ := p
        have h2 := serverTryInsert_keyRevokedIn gen kt days t k 10 s i h key s2 i2 htry
        exact ih s2 i2 h2

/-- When every key the generator can draw is absent from the table (indices
at or past the current one) and the generator never repeats, server.py's
creation loop inserts its first draw for every slot: the result is exactly
one fresh key per requested slot. -/
theorem serverCreateLoop_fresh (gen : Nat → String) (kt : KeyType) (days t : Int)
    (hinj : ∀ i j, gen i = gen j → i = j) :
    ∀ (n : Nat) (s : Store) (i : Nat),
    (∀ j, i ≤ j → keyExists s (gen j) = false) →
    serverCreateLoop gen kt days t n s i =
      ((List.range' i n).map gen,
        s ++ (List.range' i n).map fun j => serverNewRow (gen j) kt days t) := by
  intro n
  induction n with
  | zero => intro s i hfr; simp [serverCreateLoop]
  | succ n ih =>
    intro s i hfr
    have hex : keyExists s (gen i) = false := hfr i le_rfl
    have hstep : serverTryInsert gen kt days t 10 s i =
        (some (gen i, s ++ [serverNewRow (gen i) kt days t]), i + 1) := by
      unfold serverTryInsert
      simp [hex]
    have hfr2 : ∀ j, i + 1 ≤ j →
        keyExists (s ++ [serverNewRow (gen i) kt days t]) (gen j) = false := by
      intro j hj
      rw [keyExists_append]
      have hne : gen i ≠ gen j := by
        intro he
        have := hinj i j he
        omega
      simp [keyExists, serverNewRow, hfr j (by omega), hne]
    unfold serverCreateLoop
    rw [hstep]
    simp only [ih (s ++ [serverNewRow (gen i) kt days t]) (i + 1) hfr2]
    rw [List.range'_succ i n 1]
    simp [List.append_assoc]

/-! Concrete sample rows used by witnesses and counterexamples.  Each is a
table state reachable through the modelled endpoints. -/

/-- A revoked, bound timed key. -/
def rowRevoked : Row :=
  { license_key := "K", key_type := .timed, days := 1, created_at := 0,
    activated_at := some 0, expires_at := some 86400, hwid := some "HW",
    note := some "", revoked := true }

/-- A bound timed key activated at time 0 with a one-day duration; expired
from time 86401 on. -/
def rowBoundTimed : Row :=
  { license_key := "K", key_type := .timed, days := 1, created_at := 0,
    activated_at := some 0, expires_at := some 86400, hwid := some "HW",
    note := some "", revoked := false }

/-- A freshly created timed key (one-day duration), not yet activated. -/
def rowUnboundTimed : Row :=
  { license_key := "K", key_type := .timed, days := 1, created_at := 0 }

/-- A freshly created timed key with the zero-day duration server.py's
validation admits. -/
def rowUnboundTimedZero : Row :=
  { license_key := "K", key_type := .timed, days := 0, created_at := 0 }

/-- A freshly created lifetime key, not yet activated. -/
def rowUnboundLife : Row :=
  { license_key := "K", key_type := .lifetime, days := 0, created_at := 0 }

/-- A bound lifetime key. -/
def rowBoundLife : Row :=
  { license_key := "K", key_type := .lifetime, days := 0, created_at := 0,
    activated_at := some 5, expires_at := none, hwid := some "HW",
    note := some "", revoked := false }

/-- An existing row whose key the sample generators below keep drawing. -/
def rowDup : Row :=
  { license_key := "DUP", key_type := .lifetime, days := 0, created_at := 0 }

/-- C1 (amended): in both variants a revoked key always yields `Revoked`
(never `Expired` or `HwidMismatch`); server.py checks the hwid mismatch
before expiry, so a bound key presented with the wrong hwid yields
`HwidMismatch` no matter the time; but main.py checks expiry before the
hwid comparison, so a bound timed key whose expiry has passed yields
`Expired` regardless of the presented hwid. -/
theorem C1_check_order :
    (∀ (s : Store) (k h : String) (t1 t2 t3 : Int) (row : Row),
      selectRow s k = some row → row.revoked = true →
      mainActivate s k h t1 t2 t3 = (.error .revoked, s)) ∧
    (∀ (s : Store) (k h : String) (t1 t2 t3 : Int) (row : Row),
      selectRow s k = some row → row.revoked = true →
      serverActivate s k h t1 t2 t3 = (.error .revoked, s)) ∧
    (∀ (s : Store) (k h : String) (t1 t2 t3 : Int) (row : Row),
      selectRow s k = some row → row.revoked = false →
      truthyStr row.hwid = true → row.hwid ≠ some h →
      serverActivate s k h t1 t2 t3 = (.error .hwidMismatch, s)) ∧
    (∀ (s : Store) (k h : String) (t1 t2 t3 : Int) (row : Row) (e : Int),
      selectRow s k = some row → row.revoked = false →
      row.key_type = .timed → row.expires_at = some e → e < t1 →
      mainActivate s k h t1 t2 t3 = (.error .expired, s)) :=
  ⟨fun s k h t1 t2 t3 row hrow hrev => mainActivate_revokedPath s k h t1 t2 t3 row hrow hrev,
   fun s k h t1 t2 t3 row hrow hrev => serverActivate_revokedPath s k h t1 t2 t3 row hrow hrev,
   fun s k h t1 t2 t3 row hrow hrev hb hm =>
     serverActivate_mismatchPath s k h t1 t2 t3 row hrow hrev hb hm,
   fun s k h t1 t2 t3 row e hrow hrev hkt he hlt =>
     mainActivate_expiredPath s k h t1 t2 t3 row e hrow hrev hkt he hlt⟩

/-- C1: witness instantiating every conjunct of the amended claim. -/
theorem C1_check_order_witness :
    mainActivate [rowRevoked] "K" "X" 0 0 0 = (.error .revoked, [rowRevoked]) ∧
    serverActivate [rowRevoked] "K" "X" 0 0 0 = (.error .revoked, [rowRevoked]) ∧
    serverActivate [rowBoundTimed] "K" "OTHER" 90000 90000 90000 =
      (.error .hwidMismatch, [rowBoundTimed]) ∧
    mainActivate [rowBoundTimed] "K" "HW" 90000 90000 90000 =
      (.error .expired, [rowBoundTimed]) :=
  ⟨C1_check_order.1 [rowRevoked] "K" "X" 0 0 0 rowRevoked (by decide) (by decide),
   C1_check_order.2.1 [rowRevoked] "K" "X" 0 0 0 rowRevoked (by decide) (by decide),
   C1_check_order.2.2.1 [rowBoundTimed] "K" "OTHER" 90000 90000 90000 rowBoundTimed
     (by decide) (by decide) (by decide) (by decide),
   C1_check_order.2.2.2 [rowBoundTimed] "K" "HW" 90000 90000 90000 rowBoundTimed 86400
     (by decide) (by decide) (by decide) (by decide) (by decide)⟩

/-- C1: counterexample to the claim as stated.  In main.py a bound timed key
whose expiry has passed, presented with a hwid different from the bound one
("OTHER" vs "HW"), returns `Expired`, not the `HwidMismatch` the claim
requires. -/
theorem C1_counterexample :
    (mainActivate [rowBoundTimed] "K" "OTHER" 90000 90000 90000).1 = .error .expired ∧
    ActErr.expired ≠ ActErr.hwidMismatch := by
  exact ⟨rfl, by decide⟩

/-- C2 (confirmed): a key whose stored record is revoked makes every
activation of that key, in either variant and with any hwid and clock
values, fail with `Revoked` and leave the table untouched; and every
mutating endpoint of either variant preserves the invariant that the key
exists with every one of its rows revoked (no operation un-revokes). -/
theorem C2_monotonic_revocation :
    (∀ (s : Store) (k h : String) (t1 t2 t3 : Int) (row : Row),
      selectRow s k = some row → row.revoked = true →
      mainActivate s k h t1 t2 t3 = (.error .revoked, s) ∧
      serverActivate s k h t1 t2 t3 = (.error .revoked, s)) ∧
    (∀ (op : Op) (k : String) (s : Store),
      keyRevokedIn k s → keyRevokedIn k (applyOp op s)) := by
  constructor
  · intro s k h t1 t2 t3 row hrow hrev
    exact ⟨mainActivate_revokedPath s k h t1 t2 t3 row hrow hrev,
      serverActivate_revokedPath s k h t1 t2 t3 row hrow hrev⟩
  · intro op k s hk
    cases op with
    | activateM k2 h2 t1 t2 t3 =>
      show keyRevokedIn k (mainActivate s k2 h2 t1 t2 t3).2
      rcases mainActivate_store s k2 h2 t1 t2 t3 with hst | ⟨a, e, hst⟩
      · rw [hst]
        exact hk
      · rw [hst]
        exact keyRevokedIn_updateRows k k2 _ s (fun r => rfl) (fun r hr => hr) hk
    | activateS k2 h2 t1 t2 t3 =>
      show keyRevokedIn k (serverActivate s k2 h2 t1 t2 t3).2
      rcases serverActivate_store s k2 h2 t1 t2 t3 with hst | ⟨a, e, hst⟩
      · rw [hst]
        exact hk
      · rw [hst]
        exact keyRevokedIn_updateRows k k2 _ s (fun r => rfl) (fun r hr => hr) hk
    | revokeM k2 =>
      show keyRevokedIn k
        (match mainRevoke s k2 with | .ok s2 => s2 | .error _ => s)
      unfold mainRevoke
      by_cases hc : rowcount s k2 = 0
      · rw [if_pos hc]
        exact hk
      · rw [if_neg hc]
        exact keyRevokedIn_updateRows k k2 _ s (fun r => rfl) (fun r hr => rfl) hk
    | revokeS k2 =>
      exact keyRevokedIn_updateRows k k2 _ s (fun r => rfl) (fun r hr => rfl) hk
    | resetM k2 =>
      show keyRevokedIn k
        (match mainResetHwid s k2 with | .ok s2 => s2 | .error _ => s)
      unfold mainResetHwid
      by_cases hc : rowcount s k2 = 0
      · rw [if_pos hc]
        exact hk
      · rw [if_neg hc]
        exact keyRevokedIn_updateRows k k2 _ s (fun r => rfl) (fun r hr => hr) hk
    | resetS k2 =>
      exact keyRevokedIn_updateRows k k2 _ s (fun r => rfl) (fun r hr => hr) hk
    | noteM k2 nt =>
      show keyRevokedIn k
        (match mainSetNote s k2 nt with | .ok s2 => s2 | .error _ => s)
      unfold mainSetNote
      by_cases hc : rowcount s k2 = 0
      · rw [if_pos hc]
        exact hk
      · rw [if_neg hc]
        exact keyRevokedIn_updateRows k k2 _ s (fun r => rfl) (fun r hr => hr) hk
    | noteS k2 nt =>
      exact keyRevokedIn_updateRows k k2 _ s (fun r => rfl) (fun r hr => hr) hk
    | createM kt c d gen t =>
      show keyRevokedIn k
        (match mainCreateKeys s kt c d gen t with | .ok p => p.2 | .error _ => s)
      cases hc : mainCreateKeys s kt c d gen t with
      | error e => exact hk
      | ok p =>
        unfold mainCreateKeys at hc
        by_cases h1 : c < 1 ∨ 500 < c
        · rw [if_pos h1] at hc
          cases hc
        rw [if_neg h1] at hc
        by_cases h2 : kt = KeyType.timed ∧ d < 1
        · rw [if_pos h2] at hc
          cases hc
        rw [if_neg h2] at hc
        exact mainInsertLoop_keyRevokedIn kt (if kt = KeyType.lifetime then 0 else d) t gen
          k c.toNat s 0 hk p.1 p.2 (by rw [hc])
    | createS kt c d gen t =>
      show keyRevokedIn k
        (match serverCreateKeys s kt c d gen t with | some p => p.2 | none => s)
      cases hc : serverCreateKeys s kt c d gen t with
      | none => exact hk
      | some p =>
        unfold serverCreateKeys at hc
        by_cases h1 : c < 1 ∨ 200 < c ∨ d < 0 ∨ 3650 < d
        · rw [if_pos h1] at hc
          cases hc
        · rw [if_neg h1] at hc
          injection hc with hc
          have hpres := serverCreateLoop_keyRevokedIn gen kt
            (if kt = KeyType.timed then d else 0) t k c.toNat s 0 hk
          rw [hc] at hpres
          exact hpres

/-- C2: witness — a concrete revoked row rejects activation in both
variants, and a mutating operation (server-side hwid reset) keeps it
revoked. -/
theorem C2_monotonic_revocation_witness :
    mainActivate [rowRevoked] "K" "X" 0 0 0 = (.error .revoked, [rowRevoked]) ∧
    keyRevokedIn "K" (applyOp (.resetS "K") [rowRevoked]) :=
  ⟨(C2_monotonic_revocation.1 [rowRevoked] "K" "X" 0 0 0 rowRevoked (by decide) (by decide)).1,
   C2_monotonic_revocation.2 (.resetS "K") "K" [rowRevoked] ⟨by decide, by decide⟩⟩

/-- C3 (amended): for a key bound to a NON-EMPTY hwid, not revoked and not
expired at the activation instant, re-activation with the bound hwid returns
Ok carrying exactly the stored `expires_at` (rendered by each variant's
response encoding) and leaves the table unchanged — the stored expiry is
never recomputed.  The non-emptiness condition is forced by the
counterexample: Python truthiness makes both variants treat a stored empty
hwid as unbound (server.py's request validation already requires hwids of
length at least 3; main.py accepts the empty hwid). -/
theorem C3_idempotent_reactivation :
    (∀ (s : Store) (k h : String) (t1 t2 t3 : Int) (row : Row),
      selectRow s k = some row → row.revoked = false → row.hwid = some h → h ≠ "" →
      ¬(row.key_type = .timed ∧ truthyTime row.expires_at = true ∧
        row.expires_at.getD 0 < t1) →
      mainActivate s k h t1 t2 t3 = (.ok ⟨.OK, renderMain row.expires_at⟩, s)) ∧
    (∀ (s : Store) (k h : String) (t1 t2 t3 : Int) (row : Row),
      selectRow s k = some row → row.revoked = false → row.hwid = some h → h ≠ "" →
      ¬(row.key_type = .timed ∧ truthyTime row.expires_at = true ∧
        row.expires_at.getD 0 < t3) →
      serverActivate s k h t1 t2 t3 =
        (.ok ⟨true, row.key_type, renderServer row.expires_at, h⟩, s)) := by
  constructor
  · intro s k h t1 t2 t3 row hrow hrev hm hne hexp
    have hb : truthyStr row.hwid = true := by
      rw [hm]
      simp [truthyStr, hne]
    exact mainActivate_okPath s k h t1 t2 t3 row hrow hrev hexp hb hm
  · intro s k h t1 t2 t3 row hrow hrev hm hne hexp
    have hb : truthyStr row.hwid = true := by
      rw [hm]
      simp [truthyStr, hne]
    exact serverActivate_okPath s k h t1 t2 t3 row hrow hrev hb hm hexp

/-- C3: witness — a bound, unexpired timed key re-activates idempotently in
both variants at time 100. -/
theorem C3_idempotent_reactivation_witness :
    mainActivate [rowBoundTimed] "K" "HW" 100 100 100 =
      (.ok ⟨.OK, renderMain (some 86400)⟩, [rowBoundTimed]) ∧
    serverActivate [rowBoundTimed] "K" "HW" 100 100 100 =
      (.ok ⟨true, .timed, renderServer (some 86400), "HW"⟩, [rowBoundTimed]) :=
  ⟨C3_idempotent_reactivation.1 [rowBoundTimed] "K" "HW" 100 100 100 rowBoundTimed
      (by decide) (by decide) (by decide) (by decide) (by decide),
   C3_idempotent_reactivation.2 [rowBoundTimed] "K" "HW" 100 100 100 rowBoundTimed
      (by decide) (by decide) (by decide) (by decide) (by decide)⟩

/-- C3: counterexample to the claim as stated.  In main.py a key bound to
the EMPTY hwid (which `Activate("K", "")` stores, answering BOUND) is
treated as unbound on the next call because the empty string is falsy:
repeating `Activate("K", "")` at time 10 answers BOUND again — not Ok — and
recomputes the stored expiry from 86400 to 86410. -/
theorem C3_counterexample :
    (mainActivate [rowUnboundTimed] "K" "" 0 0 0).1 = .ok ⟨.BOUND, .iso 86400⟩ ∧
    (mainActivate (mainActivate [rowUnboundTimed] "K" "" 0 0 0).2 "K" "" 10 10 10).1 =
      .ok ⟨.BOUND, .iso 86410⟩ ∧
    (selectRow (mainActivate (mainActivate [rowUnboundTimed] "K" "" 0 0 0).2
        "K" "" 10 10 10).2 "K").map Row.expires_at = some (some 86410) ∧
    (86410 : Int) ≠ 86400 := by
  exact ⟨rfl, rfl, rfl, by decide⟩

/-- C4 (amended): creation stores no expiry (both variants insert NULL
binding fields), and on first activation of a timed key the stored
`expires_at` is computed from the SECOND clock read of the handler
(`tAdd`/`t3`), not from the read stored as `activated_at` (`tAct`): main.py
stores `add_days t3 days` while `activated_at = t2`, and server.py stores
`t2 + days * daySecs` while `activated_at = t1`.  Only when the two reads
coincide does the claimed equation `expiresAt = activatedAt + durationDays`
hold, `add_days` being literally that sum. -/
theorem C4_first_activation_expiry :
    (∀ (k : String) (kt : KeyType) (d t : Int),
      (mainNewRow k kt d t).expires_at = none ∧ (serverNewRow k kt d t).expires_at = none) ∧
    (∀ (s : Store) (k h : String) (t1 t2 t3 : Int) (row : Row),
      selectRow s k = some row → row.revoked = false → truthyStr row.hwid = false →
      row.key_type = .timed → row.expires_at = none →
      mainActivate s k h t1 t2 t3 =
        (.ok ⟨.BOUND, renderMain (some (add_days t3 row.days))⟩,
          updateRows s k (bindUpdate h t2 (some (add_days t3 row.days))))) ∧
    (∀ (s : Store) (k h : String) (t1 t2 t3 : Int) (row : Row),
      selectRow s k = some row → row.revoked = false → truthyStr row.hwid = false →
      row.key_type = .timed → t3 ≤ t2 + row.days * daySecs →
      serverActivate s k h t1 t2 t3 =
        (.ok ⟨true, .timed, renderServer (some (t2 + row.days * daySecs)), h⟩,
          serverBindUpdate s k h t1 (some (t2 + row.days * daySecs)))) ∧
    (∀ (t d : Int), add_days t d = t + d * daySecs) := by
  refine ⟨fun k kt d t => ⟨rfl, rfl⟩, ?_, ?_, fun t d => rfl⟩
  · intro s k h t1 t2 t3 row hrow hrev hb hkt hnone
    have hexp : ¬(row.key_type = .timed ∧ truthyTime row.expires_at = true ∧
        row.expires_at.getD 0 < t1) := by
      simp [hnone, truthyTime]
    have hb2 := mainActivate_bindPath s k h t1 t2 t3 row hrow hrev hexp hb
    simpa [hkt] using hb2
  · intro s k h t1 t2 t3 row hrow hrev hb hkt hle
    have hexp : ¬(row.key_type = .timed ∧
        truthyTime (if row.key_type = .timed then some (t2 + row.days * daySecs)
          else none) = true ∧
        (if row.key_type = .timed then some (t2 + row.days * daySecs)
          else none).getD 0 < t3) := by
      simp only [hkt, if_pos, ite_true, truthyTime, Option.getD_some]
      intro hcon
      omega
    have hb2 := serverActivate_bindPath s k h t1 t2 t3 row hrow hrev hb hexp
    simpa [hkt] using hb2

/-- C4: witness — first activations at coinciding clock reads, for both
variants. -/
theorem C4_first_activation_expiry_witness :
    mainActivate [rowUnboundTimed] "K" "HW" 5 5 5 =
      (.ok ⟨.BOUND, renderMain (some (add_days 5 1))⟩,
        updateRows [rowUnboundTimed] "K" (bindUpdate "HW" 5 (some (add_days 5 1)))) ∧
    serverActivate [rowUnboundTimedZero] "K" "HW" 0 0 0 =
      (.ok ⟨true, .timed, renderServer (some (0 + 0 * daySecs)), "HW"⟩,
        serverBindUpdate [rowUnboundTimedZero] "K" "HW" 0 (some (0 + 0 * daySecs))) :=
  ⟨C4_first_activation_expiry.2.1 [rowUnboundTimed] "K" "HW" 5 5 5 rowUnboundTimed
      (by decide) (by decide) (by decide) (by decide) (by decide),
   C4_first_activation_expiry.2.2.1 [rowUnboundTimedZero] "K" "HW" 0 0 0 rowUnboundTimedZero
      (by decide) (by decide) (by decide) (by decide) (by decide)⟩

/-- C4: counterexample to the claim as stated.  In main.py, when the clock
advances by one second between the `activated_at` read (0) and the read
inside `add_days_iso` (1), the one-day key stores `expires_at = 86401`,
which differs from `activatedAt + durationDays = 0 + 1 * 86400`. -/
theorem C4_counterexample :
    (selectRow (mainActivate [rowUnboundTimed] "K" "HW" 0 0 1).2 "K").map Row.activated_at =
      some (some 0) ∧
    (selectRow (mainActivate [rowUnboundTimed] "K" "HW" 0 0 1).2 "K").map Row.expires_at =
      some (some 86401) ∧
    (86401 : Int) ≠ 0 + 1 * daySecs := by
  exact ⟨rfl, rfl, by decide⟩

/-- C5 (amended): main.py rejects a timed creation with `days < 1` as the
claim requires; but server.py's validation only requires `0 ≤ days ≤ 3650`,
so a timed creation with `days = 0` passes validation and runs the insert
loop — a timed record with non-positive durationDays CAN be stored by
server.py (only negative days are rejected there). -/
theorem C5_timed_days_validation :
    (∀ (s : Store) (c d : Int) (gen : Nat → String) (t : Int),
      1 ≤ c → c ≤ 500 → d < 1 →
      mainCreateKeys s .timed c d gen t = .error .badDays) ∧
    (∀ (s : Store) (c : Int) (gen : Nat → String) (t : Int),
      1 ≤ c → c ≤ 200 →
      serverCreateKeys s .timed c 0 gen t =
        some (serverCreateLoop gen .timed 0 t c.toNat s 0)) := by
  constructor
  · intro s c d gen t h1 h2 h3
    unfold mainCreateKeys
    rw [if_neg (by omega), if_pos ⟨rfl, h3⟩]
  · intro s c gen t h1 h2
    unfold serverCreateKeys
    rw [if_neg (by omega)]
    simp

/-- C5: witness — concrete creations exercising both conjuncts. -/
theorem C5_timed_days_validation_witness :
    mainCreateKeys [] .timed 1 0 (fun _ => "A") 0 = .error .badDays ∧
    serverCreateKeys [] .timed 1 0 (fun _ => "A") 0 =
      some (serverCreateLoop (fun _ => "A") .timed 0 0 (1 : Int).toNat [] 0) :=
  ⟨C5_timed_days_validation.1 [] 1 0 (fun _ => "A") 0 (by decide) (by decide) (by decide),
   C5_timed_days_validation.2 [] 1 (fun _ => "A") 0 (by decide) (by decide)⟩

/-- C5: counterexample to the claim as stated: server.py accepts the
create-keys request (Timed, count 1, days 0) — no InvalidArgument — and a
timed record with durationDays = 0 ends up stored. -/
theorem C5_counterexample :
    serverCreateKeys [] .timed 1 0 (fun _ => "A") 0 =
      some (["A"], [serverNewRow "A" .timed 0 0]) ∧
    (serverNewRow "A" .timed 0 0).key_type = .timed ∧
    (serverNewRow "A" .timed 0 0).days = 0 ∧
    ¬(1 ≤ (0 : Int)) := by
  exact ⟨rfl, rfl, rfl, by decide⟩

/-- C6 (amended): main.py's Revoke/ResetHwid/SetNote answer the HTTP 404
"Key not found" when no row matches, as the claim requires; but server.py's
three admin mutations never check `cur.rowcount` and answer ok=True whether
or not the key exists. -/
theorem C6_admin_notfound :
    (∀ (s : Store) (k nt : String), keyExists s k = false →
      mainRevoke s k = .error .notFound ∧
      mainResetHwid s k = .error .notFound ∧
      mainSetNote s k nt = .error .notFound) ∧
    (∀ (s : Store) (k nt : String),
      (serverRevoke s k).2 = true ∧ (serverResetHwid s k).2 = true ∧
      (serverSetNote s k nt).2 = true) := by
  constructor
  · intro s k nt h
    have hz : rowcount s k = 0 := rowcount_zero_of_absent s k h
    exact ⟨by simp [mainRevoke, hz], by simp [mainResetHwid, hz], by simp [mainSetNote, hz]⟩
  · intro s k nt
    exact ⟨rfl, rfl, rfl⟩

/-- C6: witness — the missing key "K" on the empty table. -/
theorem C6_admin_notfound_witness :
    (mainRevoke [] "K" = .error .notFound ∧
      mainResetHwid [] "K" = .error .notFound ∧
      mainSetNote [] "K" "x" = .error .notFound) ∧
    ((serverRevoke [] "K").2 = true ∧ (serverResetHwid [] "K").2 = true ∧
      (serverSetNote [] "K" "x").2 = true) :=
  ⟨C6_admin_notfound.1 [] "K" "x" rfl, C6_admin_notfound.2 [] "K" "x"⟩

/-- C6: counterexample to the claim as stated: server.py's revoke,
reset-hwid and set-note on a key absent from the (empty) table all report
success (ok=True) instead of a "key not found" error. -/
theorem C6_counterexample :
    serverRevoke [] "K" = ([], true) ∧
    serverResetHwid [] "K" = ([], true) ∧
    serverSetNote [] "K" "x" = ([], true) ∧
    keyExists [] "K" = false := by
  exact ⟨rfl, rfl, rfl, rfl⟩

/-- C7 (amended): a bound, non-revoked lifetime key activates successfully
with the bound (non-empty) hwid at every instant, and is never reported
expired; server.py reports `expiresAt = null` as the claim states, but
main.py substitutes the sentinel string "NEVER" for the null expiry. -/
theorem C7_lifetime_never_expires :
    (∀ (s : Store) (k h : String) (t1 t2 t3 : Int) (row : Row),
      selectRow s k = some row → row.revoked = false → row.key_type = .lifetime →
      row.expires_at = none → row.hwid = some h → h ≠ "" →
      mainActivate s k h t1 t2 t3 = (.ok ⟨.OK, .never⟩, s)) ∧
    (∀ (s : Store) (k h : String) (t1 t2 t3 : Int) (row : Row),
      selectRow s k = some row → row.revoked = false → row.key_type = .lifetime →
      row.expires_at = none → row.hwid = some h → h ≠ "" →
      serverActivate s k h t1 t2 t3 = (.ok ⟨true, .lifetime, .null, h⟩, s)) := by
  constructor
  · intro s k h t1 t2 t3 row hrow hrev hkt hnone hm hne
    have hb : truthyStr row.hwid = true := by
      rw [hm]
      simp [truthyStr, hne]
    have hexp : ¬(row.key_type = .timed ∧ truthyTime row.expires_at = true ∧
        row.expires_at.getD 0 < t1) := by
      simp [hkt]
    have hp := mainActivate_okPath s k h t1 t2 t3 row hrow hrev hexp hb hm
    simpa [hnone] using hp
  · intro s k h t1 t2 t3 row hrow hrev hkt hnone hm hne
    have hb : truthyStr row.hwid = true := by
      rw [hm]
      simp [truthyStr, hne]
    have hexp : ¬(row.key_type = .timed ∧ truthyTime row.expires_at = true ∧
        row.expires_at.getD 0 < t3) := by
      simp [hkt]
    have hp := serverActivate_okPath s k h t1 t2 t3 row hrow hrev hb hm hexp
    simpa [hkt, hnone] using hp

/-- C7: witness — a bound lifetime key far in the future. -/
theorem C7_lifetime_never_expires_witness :
    mainActivate [rowBoundLife] "K" "HW" 999999999 999999999 999999999 =
      (.ok ⟨.OK, .never⟩, [rowBoundLife]) ∧
    serverActivate [rowBoundLife] "K" "HW" 999999999 999999999 999999999 =
      (.ok ⟨true, .lifetime, .null, "HW"⟩, [rowBoundLife]) :=
  ⟨C7_lifetime_never_expires.1 [rowBoundLife] "K" "HW" 999999999 999999999 999999999
      rowBoundLife (by decide) (by decide) (by decide) (by decide) (by decide) (by decide),
   C7_lifetime_never_expires.2 [rowBoundLife] "K" "HW" 999999999 999999999 999999999
      rowBoundLife (by decide) (by decide) (by decide) (by decide) (by decide) (by decide)⟩

/-- C7: counterexample to the claim as stated: main.py answers the bound
lifetime activation with the sentinel expiry "NEVER", not with null. -/
theorem C7_counterexample :
    (mainActivate [rowBoundLife] "K" "HW" 999999999 999999999 999999999).1 =
      .ok ⟨.OK, .never⟩ ∧
    ExpiryField.never ≠ ExpiryField.null := by
  exact ⟨rfl, by decide⟩

/-- Sample injective key generator (its n-th draw is n letters a) used by
the batch-creation witness. -/
def genA (n : Nat) : String := String.mk (List.replicate n 'a')

theorem genA_inj : ∀ i j, genA i = genA j → i = j := by
  intro i j h
  have h2 : List.replicate i 'a' = List.replicate j 'a' := by
    injection h
  have h3 := congrArg List.length h2
  simpa using h3

/-- C8 (amended): when the generator's draws are pairwise distinct and all
absent from the table, server.py's create inserts the first draw of every
slot and returns exactly `count` distinct keys.  Collisions, however, are
not handled as the claim states: server.py retries a slot at most 10 times
and then silently SKIPS the slot — returning ok with fewer than `count`
keys and no resource-exhaustion error (see the counterexample) — while
main.py does not retry at all: its create aborts on the first collision
with the uncaught IntegrityError. -/
theorem C8_batch_creation :
    (∀ (s : Store) (kt : KeyType) (c d t : Int) (gen : Nat → String),
      ¬(c < 1 ∨ 200 < c ∨ d < 0 ∨ 3650 < d) →
      (∀ i j, gen i = gen j → i = j) →
      (∀ j, keyExists s (gen j) = false) →
      serverCreateKeys s kt c d gen t =
        some ((List.range' 0 c.toNat).map gen,
          s ++ (List.range' 0 c.toNat).map fun j =>
            serverNewRow (gen j) kt (if kt = .timed then d else 0) t) ∧
      ((List.range' 0 c.toNat).map gen).length = c.toNat ∧
      ((List.range' 0 c.toNat).map gen).Nodup) ∧
    (∀ (s : Store) (kt : KeyType) (c d t : Int) (gen : Nat → String),
      ¬(c < 1 ∨ 500 < c) → ¬(kt = .timed ∧ d < 1) → 1 ≤ c →
      keyExists s (gen 0) = true →
      mainCreateKeys s kt c d gen t = .error .duplicateKey) := by
  constructor
  · intro s kt c d t gen hval hinj hfresh
    refine ⟨?_, by simp, ?_⟩
    · unfold serverCreateKeys
      rw [if_neg hval]
      rw [serverCreateLoop_fresh gen kt (if kt = .timed then d else 0) t hinj
        c.toNat s 0 (fun j _ => hfresh j)]
    · exact (List.nodup_range' 0 c.toNat).map fun i j hij => hinj i j hij
  · intro s kt c d t gen h1 h2 hc hex
    unfold mainCreateKeys
    rw [if_neg h1, if_neg h2]
    obtain ⟨m, hm⟩ : ∃ m, c.toNat = m + 1 := ⟨c.toNat - 1, by omega⟩
    rw [hm]
    unfold mainInsertLoop
    rw [if_pos hex]

/-- C8: witness — a two-key fresh batch in server.py, and main.py's abort on
a colliding generator. -/
theorem C8_batch_creation_witness :
    serverCreateKeys [] .lifetime 2 0 genA 0 =
      some ([genA 0, genA 1],
        [serverNewRow (genA 0) .lifetime 0 0, serverNewRow (genA 1) .lifetime 0 0]) ∧
    mainCreateKeys [rowDup] .lifetime 1 0 (fun _ => "DUP") 0 = .error .duplicateKey :=
  ⟨(C8_batch_creation.1 [] .lifetime 2 0 0 genA (by decide) genA_inj (fun j => rfl)).1,
   C8_batch_creation.2 [rowDup] .lifetime 1 0 0 (fun _ => "DUP")
     (by decide) (by decide) (by decide) (by decide)⟩

/-- C8: counterexample to the claim as stated: with "DUP" already stored and
a generator that keeps drawing "DUP", server.py's create with count = 1
exhausts its 10 attempts, silently skips the slot and answers ok with ZERO
keys — fewer than count, and no resource-exhaustion error. -/
theorem C8_counterexample :
    serverCreateKeys [rowDup] .lifetime 1 0 (fun _ => "DUP") 0 = some ([], [rowDup]) ∧
    ([] : List String).length ≠ (1 : Int).toNat := by
  exact ⟨rfl, by decide⟩

/-- C9 (amended): under SEQUENTIAL execution server.py is exclusive — the
first activation binds the caller's hwid and a later activation with a
different hwid is evaluated against the stored winner, failing with
HwidMismatch and leaving the table unchanged.  The handler, however, is a
separate SELECT followed by an UNCONDITIONAL UPDATE (no compare-and-bind
checking the stored hwid is still unset), so under the interleaved schedule
of the counterexample both racing callers succeed with their own hwid and
the second write silently overwrites the first binding. -/
theorem C9_binding_exclusivity :
    ∀ (s : Store) (k hA hB : String) (t1 t2 t3 t4 t5 t6 : Int) (row : Row),
      selectRow s k = some row → row.revoked = false → truthyStr row.hwid = false →
      hA ≠ "" → hB ≠ hA →
      ¬(row.key_type = .timed ∧
        truthyTime (if row.key_type = .timed then some (t2 + row.days * daySecs)
          else none) = true ∧
        (if row.key_type = .timed then some (t2 + row.days * daySecs)
          else none).getD 0 < t3) →
      (serverActivate s k hA t1 t2 t3).1 =
        .ok ⟨true, row.key_type,
          renderServer (if row.key_type = .timed then some (t2 + row.days * daySecs)
            else none), hA⟩ ∧
      (serverActivate (serverActivate s k hA t1 t2 t3).2 k hB t4 t5 t6).1 =
        .error .hwidMismatch ∧
      (serverActivate (serverActivate s k hA t1 t2 t3).2 k hB t4 t5 t6).2 =
        (serverActivate s k hA t1 t2 t3).2 := by
  intro s k hA hB t1 t2 t3 t4 t5 t6 row hrow hrev hb hAne hne hexp
  have h1 := serverActivate_bindPath s k hA t1 t2 t3 row hrow hrev hb hexp
  have hsel : selectRow (serverActivate s k hA t1 t2 t3).2 k =
      some (bindUpdate hA t1
        (if row.key_type = .timed then some (t2 + row.days * daySecs) else none) row) := by
    rw [h1]
    show selectRow (updateRows s k (bindUpdate hA t1
      (if row.key_type = .timed then some (t2 + row.days * daySecs) else none))) k = _
    rw [selectRow_updateRows_self s k (bindUpdate hA t1
      (if row.key_type = .timed then some (t2 + row.days * daySecs) else none))
      (fun r => rfl), hrow]
    rfl
  have hb2 : truthyStr (bindUpdate hA t1
      (if row.key_type = .timed then some (t2 + row.days * daySecs) else none) row).hwid =
      true := by
    simp [bindUpdate, truthyStr, hAne]
  have hm2 : (bindUpdate hA t1
      (if row.key_type = .timed then some (t2 + row.days * daySecs) else none) row).hwid ≠
      some hB := by
    simp only [bindUpdate, Option.some.injEq, ne_eq]
    intro hcon
    exact hne hcon.symm
  have h2 := serverActivate_mismatchPath (serverActivate s k hA t1 t2 t3).2 k hB t4 t5 t6
    _ hsel hrev hb2 hm2
  exact ⟨by rw [h1], by rw [h2], by rw [h2]⟩

/-- C9: witness — a fresh lifetime key: caller A binds, caller B (different
hwid, after A) is rejected with HwidMismatch. -/
theorem C9_binding_exclusivity_witness :
    (serverActivate [rowUnboundLife] "K" "HWA" 0 0 0).1 =
      .ok ⟨true, .lifetime, renderServer none, "HWA"⟩ ∧
    (serverActivate (serverActivate [rowUnboundLife] "K" "HWA" 0 0 0).2 "K" "HWB" 0 0 0).1 =
      .error .hwidMismatch ∧
    (serverActivate (serverActivate [rowUnboundLife] "K" "HWA" 0 0 0).2 "K" "HWB" 0 0 0).2 =
      (serverActivate [rowUnboundLife] "K" "HWA" 0 0 0).2 :=
  C9_binding_exclusivity [rowUnboundLife] "K" "HWA" "HWB" 0 0 0 0 0 0 rowUnboundLife
    (by decide) (by decide) (by decide) (by decide) (by decide) (by decide)

/-- C9: counterexample to the claim as stated — the read-read-write-write
interleaving of two racing first activations.  Both handlers read the
unbound row of the initial table, both decide to bind, and both answer ok
with their OWN hwid; applying A's then B's unconditional UPDATE leaves B's
hwid stored: A's binding is silently overwritten, B was never evaluated
against A's hwid, and there are two "winners" — no atomic compare-and-bind
exists in the code. -/
theorem C9_counterexample :
    (serverHandle (selectRow [rowUnboundLife] "K") "HWA" 0 0 0).1 =
      .ok ⟨true, .lifetime, .null, "HWA"⟩ ∧
    (serverHandle (selectRow [rowUnboundLife] "K") "HWA" 0 0 0).2 = some (0, none) ∧
    (serverHandle (selectRow [rowUnboundLife] "K") "HWB" 0 0 0).1 =
      .ok ⟨true, .lifetime, .null, "HWB"⟩ ∧
    (serverHandle (selectRow [rowUnboundLife] "K") "HWB" 0 0 0).2 = some (0, none) ∧
    (selectRow (serverBindUpdate (serverBindUpdate [rowUnboundLife] "K" "HWA" 0 none)
      "K" "HWB" 0 none) "K").map Row.hwid = some (some "HWB") := by
  exact ⟨rfl, rfl, rfl, rfl, rfl⟩

/-- C10 (amended): main.py's activate leaves the table unchanged on every
error; server.py's activate leaves it unchanged on NotFound, Revoked and
HwidMismatch, and on Expired when the key was already bound — but an
Expired reported on the first-activation path has ALREADY committed the
binding UPDATE, because the expiry check runs after the commit (see the
counterexample with a zero-day timed key). -/
theorem C10_error_no_side_effect :
    (∀ (s : Store) (k h : String) (t1 t2 t3 : Int) (er : ActErr),
      (mainActivate s k h t1 t2 t3).1 = .error er →
      (mainActivate s k h t1 t2 t3).2 = s) ∧
    (∀ (s : Store) (k h : String) (t1 t2 t3 : Int) (er : ActErr),
      (serverActivate s k h t1 t2 t3).1 = .error er → er ≠ .expired →
      (serverActivate s k h t1 t2 t3).2 = s) ∧
    (∀ (s : Store) (k h : String) (t1 t2 t3 : Int) (row : Row),
      selectRow s k = some row → truthyStr row.hwid = true →
      (serverActivate s k h t1 t2 t3).2 = s) :=
  ⟨fun s k h t1 t2 t3 er herr => mainActivate_error_unchanged s k h t1 t2 t3 er herr,
   fun s k h t1 t2 t3 er herr hne =>
     serverActivate_otherError_unchanged s k h t1 t2 t3 er hne herr,
   fun s k h t1 t2 t3 row hrow hb =>
     serverActivate_bound_unchanged s k h t1 t2 t3 row hrow hb⟩

/-- C10: witness — concrete error paths leaving the table unchanged in both
variants. -/
theorem C10_error_no_side_effect_witness :
    (mainActivate [rowBoundTimed] "K" "OTHER" 100 100 100).2 = [rowBoundTimed] ∧
    (serverActivate [rowRevoked] "K" "X" 0 0 0).2 = [rowRevoked] ∧
    (serverActivate [rowBoundTimed] "K" "HW" 90000 90000 90000).2 = [rowBoundTimed] :=
  ⟨C10_error_no_side_effect.1 [rowBoundTimed] "K" "OTHER" 100 100 100 .hwidMismatch rfl,
   (C10_error_no_side_effect.2.1 [rowRevoked] "K" "X" 0 0 0 .revoked rfl (by decide)),
   C10_error_no_side_effect.2.2 [rowBoundTimed] "K" "HW" 90000 90000 90000 rowBoundTimed
     (by decide) (by decide)⟩

/-- C10: counterexample to the claim as stated: server.py's first activation
of a zero-day timed key (reachable per C5) commits the binding — the stored
hwid becomes "HWX" — and then reports Expired when the clock has moved past
the just-computed expiry: an error response with a committed side effect. -/
theorem C10_counterexample :
    (serverActivate [rowUnboundTimedZero] "K" "HWX" 0 0 1).1 = .error .expired ∧
    (selectRow (serverActivate [rowUnboundTimedZero] "K" "HWX" 0 0 1).2 "K").map Row.hwid =
      some (some "HWX") ∧
    (serverActivate [rowUnboundTimedZero] "K" "HWX" 0 0 1).2 ≠ [rowUnboundTimedZero] := by
  exact ⟨rfl, rfl, by decide⟩

end LicenseServer
